import Mathlib

/-!
Verification of the command-authorization-and-actuation core of the
`door_opener_telegram` ESP8266 firmware (file `Door_Opener_Telegram` main
sketch, English variant).

Shallow embedding conventions:
* `millis()` values are naturals below `2 ^ 32` (`unsigned long` on ESP8266);
  the wrap-around subtraction `a - b` on `unsigned long` is modelled by
  `sub32`.
* Global mutable state is threaded explicitly (`Actuator`, `OperationLog`,
  `SysState`).
* `Serial` prints, `delay` calls and the OLED refresh are write-only
  diagnostics with no influence on the modelled state; they are omitted from
  the effect traces.  Outbound Telegram traffic and buzzer feedback are kept
  as explicit `Effect`s because the claims quantify over them.
-/

/-- Wrap-around subtraction of 32-bit unsigned values: the value of the C
expression `a - b` at type `unsigned long` when both operands are below
`2 ^ 32`. -/
def sub32 (a b : Nat) : Nat :=
  (a + 2 ^ 32 - b % 2 ^ 32) % 2 ^ 32

theorem sub32_eq_sub (a b : Nat) (hba : b ≤ a) (ha : a < 2 ^ 32) :
    sub32 a b = a - b := by
  unfold sub32
  have hb : b < 2 ^ 32 := lt_of_le_of_lt hba ha
  rw [Nat.mod_eq_of_lt hb]
  have h1 : a + 2 ^ 32 - b = (a - b) + 2 ^ 32 := by omega
  rw [h1, Nat.add_mod_right, Nat.mod_eq_of_lt (by omega)]

-- ===================== TIMING SETTINGS =====================

/-- `const unsigned long DOOR_TIMEOUT = 1000;` (door open for 1 second). -/
def DOOR_TIMEOUT : Nat := 1000

/-- `const unsigned long LIGHT_TIMEOUT = 1000;` (light on for 1 second). -/
def LIGHT_TIMEOUT : Nat := 1000

/-- `const unsigned long interruptDebounceDelay = 100;`. -/
def interruptDebounceDelay : Nat := 100

-- ===================== ACTUATOR MODEL =====================

/-- State of one relay-driven actuator: the relay output pin
(`digitalWrite(RELAY, ...)`) together with the activation timestamp global
(`doorOpenTime` / `lightOpenTime`).  The firmware uses timestamp `0` as the
"inactive / cleared" sentinel. -/
structure Actuator where
  relay : Bool
  openTime : Nat
  deriving Repr, DecidableEq

/-- Boot state: relay LOW, timestamp 0. -/
def actuatorInit : Actuator := ⟨false, 0⟩

/-- `openDoor()`: `digitalWrite(DOOR_RELAY, HIGH); doorOpenTime = millis();`. -/
def openDoor (now : Nat) (_a : Actuator) : Actuator :=
  { relay := true, openTime := now }

/-- `lightOn()`: `digitalWrite(LIGHT_RELAY, HIGH); lightOpenTime = millis();`. -/
def lightOn (now : Nat) (_a : Actuator) : Actuator :=
  { relay := true, openTime := now }

/-- One branch of `handleTimeouts()`:
`if (openTime > 0 && millis() - openTime > timeout) { digitalWrite(RELAY, LOW); openTime = 0; }`. -/
def sweepActuator (timeout now : Nat) (a : Actuator) : Actuator :=
  if a.openTime > 0 ∧ sub32 now a.openTime > timeout then
    { relay := false, openTime := 0 }
  else a

/-- `handleTimeouts()` applied to the door/light pair. -/
def handleTimeouts (now : Nat) (door light : Actuator) : Actuator × Actuator :=
  (sweepActuator DOOR_TIMEOUT now door, sweepActuator LIGHT_TIMEOUT now light)

/-- A step of the door actuator's history: an `openDoor()` call or a
`handleTimeouts()` sweep, each tagged with the `millis()` reading. -/
inductive DoorAct where
  | activate (t : Nat)
  | sweep (t : Nat)
  deriving Repr, DecidableEq

/-- Run a sequence of door activations and timeout sweeps. -/
def runDoor (acts : List DoorAct) (a : Actuator) : Actuator :=
  acts.foldl (fun s act =>
    match act with
    | .activate t => openDoor t s
    | .sweep t => sweepActuator DOOR_TIMEOUT t s) a

-- ===================== OPERATION LOG =====================

/-- `struct LogEntry { unsigned long timestamp; long chatId; String operation; String userName; }`. -/
structure LogEntry where
  timestamp : Nat
  chatId : Int
  operation : String
  userName : String
  deriving Repr, DecidableEq

/-- An empty slot as produced by `initializeLog()`. -/
def emptyLogEntry : LogEntry := ⟨0, 0, "", ""⟩

/-- `LogEntry operationLog[5]`, slot 0 first. -/
structure OperationLog where
  e0 : LogEntry
  e1 : LogEntry
  e2 : LogEntry
  e3 : LogEntry
  e4 : LogEntry
  deriving Repr, DecidableEq

/-- `initializeLog()`: all five slots cleared. -/
def initializeLog : OperationLog :=
  ⟨emptyLogEntry, emptyLogEntry, emptyLogEntry, emptyLogEntry, emptyLogEntry⟩

/-- `logOperation(chatId, operation, userName)`: the downward loop
`for (i = 4; i > 0; i--) operationLog[i] = operationLog[i-1];` followed by the
write of slot 0 with `timestamp = millis()`. -/
def logOperation (now : Nat) (chatId : Int) (operation userName : String)
    (l : OperationLog) : OperationLog :=
  ⟨⟨now, chatId, operation, userName⟩, l.e0, l.e1, l.e2, l.e3⟩

/-- The array `operationLog[0..4]` as a list, index order preserved. -/
def OperationLog.entries (l : OperationLog) : List LogEntry :=
  [l.e0, l.e1, l.e2, l.e3, l.e4]

/-- Number of valid (nonzero-timestamp) slots, as counted by the loop at the
top of `getFormattedLog()`. -/
def countValidEntries (l : OperationLog) : Nat :=
  (l.entries.filter (fun e => e.timestamp > 0)).length

-- ===================== AUTHORIZED-USER PARSING =====================

/-- `#define MAX_USERS 10`. -/
def MAX_USERS : Nat := 10

/-- `#define MAX_USERS_LEN 128`. -/
def MAX_USERS_LEN : Nat := 128

/-- The whitespace characters skipped by C `atol`. -/
def isSpaceChar (c : Char) : Bool :=
  c = ' ' ∨ c = '\t' ∨ c = '\n' ∨ c = '\x0b' ∨ c = '\x0c' ∨ c = '\r'

/-- Decimal value of a digit run. -/
def digitsVal (cs : List Char) : Nat :=
  cs.foldl (fun a c => a * 10 + (c.toNat - 48)) 0

/-- C `atol` (also Arduino `String::toInt`): skip leading whitespace, read an
optional sign, then the longest digit prefix; no digits yields 0.  Values are
unbounded here; `long` overflow is undefined behaviour in the source and is
never exercised by the claims. -/
def atolCore (cs : List Char) : Int :=
  match cs.dropWhile isSpaceChar with
  | [] => 0
  | c :: rest =>
    if c = '-' then -(Int.ofNat (digitsVal (rest.takeWhile Char.isDigit)))
    else if c = '+' then Int.ofNat (digitsVal (rest.takeWhile Char.isDigit))
    else Int.ofNat (digitsVal ((c :: rest).takeWhile Char.isDigit))

/-- Split on `,`, keeping the raw pieces (possibly empty). -/
def splitCommaAux : List Char → List Char → List (List Char)
  | [], cur => [cur.reverse]
  | c :: rest, cur =>
    if c = ',' then cur.reverse :: splitCommaAux rest []
    else splitCommaAux rest (c :: cur)

/-- The token sequence produced by `strtok(usersCopy, ",")`: the non-empty
comma-separated pieces, in order (strtok skips empty pieces). -/
def commaTokens (cs : List Char) : List (List Char) :=
  (splitCommaAux cs []).filter (fun t => t ≠ [])

/-- The `while (token != NULL && numAuthorizedUsers < MAX_USERS)` loop of
`parseAuthorizedUsers()`: `n` is the running `numAuthorizedUsers`. -/
def parseUsersLoop : List (List Char) → Nat → List Int
  | [], _ => []
  | t :: ts, n =>
    if n < MAX_USERS then atolCore t :: parseUsersLoop ts (n + 1)
    else []

/-- `parseAuthorizedUsers()`: resets the count, copies the config string with
`strncpy(usersCopy, userConfig.authorizedUsers, MAX_USERS_LEN-1)` (truncation
to 127 characters), tokenizes on commas and converts each token with `atol`,
stopping at `MAX_USERS` entries. -/
def parseAuthorizedUsers (raw : String) : List Int :=
  parseUsersLoop (commaTokens (raw.data.take (MAX_USERS_LEN - 1))) 0

/-- `isAuthorizedUser(chat_id)`: linear scan of the stored entries. -/
def isAuthorizedUser (chat_id : Int) (users : List Int) : Bool :=
  users.any (fun u => u == chat_id)

-- ===================== TIME FORMATTING =====================

/-- `formatTimeAgoShort(ago)`: abbreviated elapsed-time rendering used on the
OLED display (note the legacy non-English day suffix `"g "`). -/
def formatTimeAgoShort (ago : Nat) : String :=
  let seconds := ago / 1000
  if seconds < 60 then Nat.repr seconds ++ "s "
  else
    let minutes := seconds / 60
    if minutes < 60 then Nat.repr minutes ++ "m "
    else
      let hours := minutes / 60
      if hours < 24 then Nat.repr hours ++ "h "
      else
        let days := hours / 24
        Nat.repr days ++ "g "

/-- `formatTimeAgo(ago)`: long relative-time phrase used in the detailed log. -/
def formatTimeAgo (ago : Nat) : String :=
  let seconds := ago / 1000
  if seconds < 60 then Nat.repr seconds ++ " seconds ago"
  else
    let minutes := seconds / 60
    if minutes < 60 then Nat.repr minutes ++ " minutes ago"
    else
      let hours := minutes / 60
      if hours < 24 then Nat.repr hours ++ " hours ago"
      else
        let days := hours / 24
        Nat.repr days ++ " days ago"

/-- `formatUptime(milliseconds)`: composite uptime rendering. -/
def formatUptime (milliseconds : Nat) : String :=
  let seconds := milliseconds / 1000
  let minutes := seconds / 60
  let hours := minutes / 60
  let days := hours / 24
  (if days > 0 then Nat.repr days ++ "d " else "")
    ++ (if hours % 24 > 0 then Nat.repr (hours % 24) ++ "h " else "")
    ++ (if minutes % 60 > 0 then Nat.repr (minutes % 60) ++ "m " else "")
    ++ Nat.repr (seconds % 60) ++ "s"

-- ===================== LOG RENDERING =====================

/-- `getShortLogLine(idx)`: one compact OLED log line; empty string for an
empty slot (`timestamp == 0`).  `now` is the `millis()` reading. -/
def getShortLogLine (l : OperationLog) (now idx : Nat) : String :=
  let e := l.entries.getD idx emptyLogEntry
  if e.timestamp = 0 then ""
  else
    let action :=
      if e.operation == "LIGHT_ON" then "Light"
      else if e.operation == "DOOR_BUTTON" then "Door"
      else "Door"
    let name := e.userName
    let ago := formatTimeAgoShort (sub32 now e.timestamp)
    name ++ " " ++ action ++ " " ++ ago

/-- Body of the rendering loop of `getFormattedLog()`: one emoji-tagged block
for a single entry. -/
def logEntryBlock (now : Nat) (e : LogEntry) : String :=
  let timeAgo := formatTimeAgo (sub32 now e.timestamp)
  let emoji := if e.operation == "LIGHT_ON" then "💡" else "🚪"
  let operationName := if e.operation == "LIGHT_ON" then "LIGHT ON" else "DOOR OPENED"
  "• " ++ emoji ++ " " ++ operationName ++ "\n"
    ++ "  👤 " ++ e.userName ++ "\n"
    ++ "  ⏰ " ++ timeAgo ++ "\n\n"

/-- `getFormattedLog()`: counts the valid (nonzero-timestamp) slots over the
whole array, then renders slots `0 .. validEntries-1`. -/
def getFormattedLog (now : Nat) (l : OperationLog) : String :=
  let logStr := "📋 *Operations Log*\n\n"
  let validEntries := countValidEntries l
  if validEntries = 0 then logStr ++ "No operations recorded."
  else logStr ++ String.join ((l.entries.take validEntries).map (logEntryBlock now))

-- ===================== DISPATCHER STATE AND EFFECTS =====================

/-- Observable side effects of command processing.  Serial diagnostics,
`delay` and the OLED refresh are omitted (write-only, not referenced by any
claim); outbound Telegram traffic and buzzer feedback are explicit. -/
inductive Effect where
  | sendMessage (chat_id text parse_mode : String)
  | sendMessageWithInlineKeyboard (chat_id text parse_mode keyboard : String)
  | answerCallbackQuery (query_id text : String)
  | beepConfirm
  | beepError
  deriving Repr, DecidableEq

/-- Whether an effect is an outbound Telegram transmission. -/
def Effect.isOutbound : Effect → Bool
  | .sendMessage .. => true
  | .sendMessageWithInlineKeyboard .. => true
  | .answerCallbackQuery .. => true
  | .beepConfirm => false
  | .beepError => false

/-- The mutable globals touched by the dispatcher, plus the environment reads
(`millis()`, WiFi status, free heap) it performs. -/
structure SysState where
  now : Nat
  door : Actuator
  light : Actuator
  operationLog : OperationLog
  authorizedUsers : List Int
  buttonInterruptFlag : Bool
  wifiConnected : Bool
  rssi : Int
  freeHeap : Nat
  deriving Repr, DecidableEq

/-- `getDetailedSystemStatus()`. -/
def getDetailedSystemStatus (st : SysState) : String :=
  "ℹ️ *Door Opener System Status*\n\n"
    ++ "*Connectivity:*\n"
    ++ "📶 WiFi: " ++ (if st.wifiConnected then "✅ Connected" else "❌ Disconnected") ++ "\n"
    ++ "📡 Signal: " ++ Int.repr st.rssi ++ " dBm\n\n"
    ++ "*Devices:*\n"
    ++ "🚪 Door: " ++ (if st.door.openTime > 0 then "🟢 Open" else "🔴 Closed") ++ "\n"
    ++ "💡 Light: " ++ (if st.light.openTime > 0 then "🟢 Turned on" else "🔴 Turned off") ++ "\n\n"
    ++ "*System:*\n"
    ++ "⏱️ Uptime: " ++ formatUptime st.now ++ "\n"
    ++ "🔋 Free memory: " ++ Nat.repr st.freeHeap ++ " bytes\n"
    ++ "👥 Authorized users: " ++ Nat.repr st.authorizedUsers.length

-- ===================== MESSAGE TEXTS =====================

/-- Text of `handleUnauthorizedUser`. -/
def accessDeniedText : String :=
  "🚫 *Access Denied*\n\nYou are not authorized to use this system.\nContact the administrator to request access."

/-- Text of `sendWelcomeMessage`. -/
def welcomeText : String :=
  "🏠 *Welcome to the Door Opener System*\n\nThe system is up and running and ready to use.\n\nUse the buttons below to control the system or type in commands manually. \n\n*Text commands available: *\n🚪 /open - Opens the front door\n💡 /light - Turns on stair light\nℹ️ /status - System status\n📋 /log - Operations log\n🎛️ /menu - Show menu buttons\n❓ /help - Complete guide\n_Secure system with access control_"

/-- Text of `sendHelpMessage`. -/
def helpText : String :=
  "❓ *Door Opener System Control Guide*\n\n*Main Commands:*\n🚪 `/open` - Opens the door\n💡 `/light` - Turns on stair light\n*Information Commands:*\nℹ️ `/status` - Full system status\n📋 `/log` - Latest operation logs\n❓ `/help` - This guide\n\n*Security:*\n🔒 Only authorized users can use the system\n📊 Only the last 5 transactions are recorded\n🔄 Automatic release Relay for safety"

/-- Text of `handleUnknownCommand`. -/
def unknownCommandText : String :=
  "❓ *Command Not Recognized*\n\nThe entered command is invalid.\nUse /help to see all available commands or /menu for buttons."

/-- Menu text of `sendMainMenu`. -/
def menuText : String :=
  "🎛️ *Door Opener Control Menu*\n\nChoose an action using the buttons below:"

/-- Inline keyboard JSON of `sendMainMenu`. -/
def menuKeyboard : String :=
  "[[\x7b\"text\":\"🚪 Open Door\",\"callback_data\":\"OPEN_DOOR\"\x7d],[\x7b\"text\":\"💡 Turn on Light\",\"callback_data\":\"LIGHT_ON\"\x7d],[\x7b\"text\":\"ℹ️ System Status\",\"callback_data\":\"STATE_SYSTEM\"\x7d,\x7b\"text\":\"📋 Show Log\",\"callback_data\":\"SHOW_LOG\"\x7d],[\x7b\"text\":\"❓ Help\",\"callback_data\":\"HELP\"\x7d]]"

/-- Confirmation text of `handleOpenDoor`. -/
def openDoorMessage (from_name : String) : String :=
  "🚪 *Open Door*\n\n✅ Command executed successfully\n⏰ The door has been OPENED\n👤 Requested by: " ++ from_name

/-- Confirmation text of `handleOpenDoorCallback`. -/
def openDoorCbMessage (from_name : String) : String :=
  "🚪 *Open Door!*\n\n✅ Command executed successfully\n⏰ The door has been opened!\n👤 Requested by: " ++ from_name

/-- Confirmation text of `handleTurnOnLight`. -/
def lightOnMessage (from_name : String) : String :=
  "💡 *Light On*\n\n✅ Staircase light on\n⏰ It will automatically turn off in few seconds\n👤 Requested by: " ++ from_name

/-- Confirmation text of `handleLightOnCallback`. -/
def lightOnCbMessage (from_name : String) : String :=
  "💡 *Light On*\n\n✅ Staircase light on\n⏰ It will turn off automatically!\n👤 Requested by: " ++ from_name

-- ===================== COMMAND HANDLERS =====================

/-- `sendMainMenu(chat_id)`. -/
def sendMainMenu (chat_id : String) : List Effect :=
  [.sendMessageWithInlineKeyboard chat_id menuText "Markdown" menuKeyboard]

/-- `sendWelcomeMessage(chat_id)` (welcome message, then menu). -/
def sendWelcomeMessage (chat_id : String) : List Effect :=
  .sendMessage chat_id welcomeText "Markdown" :: sendMainMenu chat_id

/-- `handleOpenDoor(chat_id, from_name, user_id)`: open relay, confirm,
log with operation `"OPEN_DOOR"`, beep, resend menu. -/
def handleOpenDoor (chat_id from_name : String) (user_id : Int)
    (st : SysState) : SysState × List Effect :=
  let st1 := { st with door := openDoor st.now st.door }
  let st2 := { st1 with
    operationLog := logOperation st.now user_id "OPEN_DOOR" from_name st1.operationLog }
  (st2, .sendMessage chat_id (openDoorMessage from_name) "Markdown"
      :: .beepConfirm :: sendMainMenu chat_id)

/-- `handleTurnOnLight(chat_id, from_name, user_id)`. -/
def handleTurnOnLight (chat_id from_name : String) (user_id : Int)
    (st : SysState) : SysState × List Effect :=
  let st1 := { st with light := lightOn st.now st.light }
  let st2 := { st1 with
    operationLog := logOperation st.now user_id "LIGHT_ON" from_name st1.operationLog }
  (st2, .sendMessage chat_id (lightOnMessage from_name) "Markdown"
      :: .beepConfirm :: sendMainMenu chat_id)

/-- `handleStateSystem(chat_id)`. -/
def handleStateSystem (chat_id : String) (st : SysState) : SysState × List Effect :=
  (st, .sendMessage chat_id (getDetailedSystemStatus st) "Markdown" :: sendMainMenu chat_id)

/-- `handleShowLog(chat_id)`. -/
def handleShowLog (chat_id : String) (st : SysState) : SysState × List Effect :=
  (st, .sendMessage chat_id (getFormattedLog st.now st.operationLog) "Markdown"
      :: sendMainMenu chat_id)

/-- `sendHelpMessage(chat_id)`. -/
def sendHelpMessage (chat_id : String) : List Effect :=
  .sendMessage chat_id helpText "Markdown" :: sendMainMenu chat_id

/-- `handleUnknownCommand(chat_id)`. -/
def handleUnknownCommand (chat_id : String) : List Effect :=
  [.sendMessage chat_id unknownCommandText "Markdown"]

/-- `handleUnauthorizedUser(chat_id, from_name)`: access-denied text, a
Serial diagnostic line (omitted), then `errorBeep()`. -/
def handleUnauthorizedUser (chat_id _from_name : String) : List Effect :=
  [.sendMessage chat_id accessDeniedText "Markdown", .beepError]

/-- `processCommand(chat_id, text, from_name, user_id)`: the text-command
if-chain. -/
def processCommand (chat_id text from_name : String) (user_id : Int)
    (st : SysState) : SysState × List Effect :=
  if text = "/start" then (st, sendWelcomeMessage chat_id)
  else if text = "/open" then handleOpenDoor chat_id from_name user_id st
  else if text = "/light" then handleTurnOnLight chat_id from_name user_id st
  else if text = "/status" then handleStateSystem chat_id st
  else if text = "/log" then handleShowLog chat_id st
  else if text = "/help" then (st, sendHelpMessage chat_id)
  else if text = "/menu" then (st, sendMainMenu chat_id)
  else (st, handleUnknownCommand chat_id)

-- ===================== CALLBACK HANDLERS =====================

/-- `handleOpenDoorCallback(chat_id, from_name, user_id, query_id)`. -/
def handleOpenDoorCallback (chat_id from_name : String) (user_id : Int)
    (query_id : String) (st : SysState) : SysState × List Effect :=
  let st1 := { st with door := openDoor st.now st.door }
  let st2 := { st1 with
    operationLog := logOperation st.now user_id "OPEN_DOOR" from_name st1.operationLog }
  (st2, .answerCallbackQuery query_id "🚪 Door Open! Door Opener Pressed!"
      :: .sendMessage chat_id (openDoorCbMessage from_name) "Markdown"
      :: .beepConfirm :: sendMainMenu chat_id)

/-- `handleLightOnCallback(chat_id, from_name, user_id, query_id)`. -/
def handleLightOnCallback (chat_id from_name : String) (user_id : Int)
    (query_id : String) (st : SysState) : SysState × List Effect :=
  let st1 := { st with light := lightOn st.now st.light }
  let st2 := { st1 with
    operationLog := logOperation st.now user_id "LIGHT_ON" from_name st1.operationLog }
  (st2, .answerCallbackQuery query_id "💡 Light On. It will automatically turn off"
      :: .sendMessage chat_id (lightOnCbMessage from_name) "Markdown"
      :: .beepConfirm :: sendMainMenu chat_id)

/-- `handleStateSystemCallback(chat_id, query_id)`. -/
def handleStateSystemCallback (chat_id query_id : String) (st : SysState) :
    SysState × List Effect :=
  (st, .answerCallbackQuery query_id "📊 Retrieving system status..."
      :: .sendMessage chat_id (getDetailedSystemStatus st) "Markdown"
      :: sendMainMenu chat_id)

/-- `handleShowLogCallback(chat_id, query_id)`. -/
def handleShowLogCallback (chat_id query_id : String) (st : SysState) :
    SysState × List Effect :=
  (st, .answerCallbackQuery query_id "📋 Retrieval log operations..."
      :: .sendMessage chat_id (getFormattedLog st.now st.operationLog) "Markdown"
      :: sendMainMenu chat_id)

/-- `handleHelpCallback(chat_id, query_id)`. -/
def handleHelpCallback (chat_id query_id : String) : List Effect :=
  .answerCallbackQuery query_id "❓ Command guide..." :: sendHelpMessage chat_id

/-- `processCallback(chat_id, callback_data, from_name, user_id, query_id)`. -/
def processCallback (chat_id callback_data from_name : String) (user_id : Int)
    (query_id : String) (st : SysState) : SysState × List Effect :=
  if callback_data = "OPEN_DOOR" then
    handleOpenDoorCallback chat_id from_name user_id query_id st
  else if callback_data = "LIGHT_ON" then
    handleLightOnCallback chat_id from_name user_id query_id st
  else if callback_data = "STATE_SYSTEM" then
    handleStateSystemCallback chat_id query_id st
  else if callback_data = "SHOW_LOG" then
    handleShowLogCallback chat_id query_id st
  else if callback_data = "HELP" then (st, handleHelpCallback chat_id query_id)
  else (st, [.answerCallbackQuery query_id "❌ Unrecognized command"])

-- ===================== INBOUND EVENT DISPATCH =====================

/-- `bot.messages[i].type`. -/
inductive TgMsgType where
  | message
  | callback_query
  deriving Repr, DecidableEq

/-- One inbound Telegram update as read by `handleNewMessages`: for a
callback query, `text` carries the callback data. -/
structure TgMessage where
  msgType : TgMsgType
  chat_id : String
  text : String
  from_name : String
  query_id : String
  deriving Repr, DecidableEq

/-- The body of the `handleNewMessages` loop for one message: compute
`user_id = chat_id.toInt()`, gate on `isAuthorizedUser`, then route.  An
unauthorized text message gets `handleUnauthorizedUser`; an unauthorized
callback only gets `bot.answerCallbackQuery(query_id, "Unauthorized")`. -/
def handleOneMessage (m : TgMessage) (st : SysState) : SysState × List Effect :=
  match m.msgType with
  | .message =>
    let user_id := atolCore m.chat_id.data
    if isAuthorizedUser user_id st.authorizedUsers then
      processCommand m.chat_id m.text m.from_name user_id st
    else
      (st, handleUnauthorizedUser m.chat_id m.from_name)
  | .callback_query =>
    let user_id := atolCore m.chat_id.data
    if isAuthorizedUser user_id st.authorizedUsers then
      processCallback m.chat_id m.text m.from_name user_id m.query_id st
    else
      (st, [.answerCallbackQuery m.query_id "Unauthorized"])

-- ===================== PHYSICAL BUTTON =====================

/-- `openDoorFromButton()`: clear the interrupt flag, open the door, log with
chat id 0, operation `"DOOR_BUTTON"`, user `"Button"`, beep.  No Telegram
traffic is produced. -/
def openDoorFromButton (st : SysState) : SysState × List Effect :=
  let st1 := { st with buttonInterruptFlag := false }
  let st2 := { st1 with door := openDoor st.now st1.door }
  let st3 := { st2 with
    operationLog := logOperation st.now 0 "DOOR_BUTTON" "Button" st2.operationLog }
  (st3, [.beepConfirm])

/-- `checkButtonOpenDoor()`: consume the pending flag and fire the button
sequence. -/
def checkButtonOpenDoor (st : SysState) : SysState × List Effect :=
  if st.buttonInterruptFlag then
    openDoorFromButton { st with buttonInterruptFlag := false }
  else (st, [])

/-- The two globals shared with the ISR:
`volatile bool buttonInterruptFlag; volatile unsigned long lastInterruptTime;`. -/
structure ButtonState where
  buttonInterruptFlag : Bool
  lastInterruptTime : Nat
  deriving Repr, DecidableEq

/-- Boot values of the ISR globals. -/
def buttonInit : ButtonState := ⟨false, 0⟩

/-- `buttonISR()`: accept the edge only if
`millis() - lastInterruptTime > interruptDebounceDelay`. -/
def buttonISR (now : Nat) (s : ButtonState) : ButtonState :=
  if sub32 now s.lastInterruptTime > interruptDebounceDelay then
    { buttonInterruptFlag := true, lastInterruptTime := now }
  else s

/-- Number of accepted button events for a sequence of raw edges when the
main loop polls (and clears) the flag after each edge, as
`checkButtonOpenDoor` does once per loop iteration. -/
def pollAcceptedEvents : List Nat → ButtonState → Nat
  | [], _ => 0
  | t :: ts, s =>
    let s1 := buttonISR t s
    (if s1.buttonInterruptFlag then 1 else 0) +
      pollAcceptedEvents ts { s1 with buttonInterruptFlag := false }

-- ===================== HELPER LEMMAS =====================

theorem parseUsersLoop_eq (ts : List (List Char)) : ∀ n : Nat,
    parseUsersLoop ts n = (ts.take (MAX_USERS - n)).map atolCore := by
  induction ts with
  | nil => intro n; simp [parseUsersLoop]
  | cons t ts ih =>
    intro n
    by_cases h : n < MAX_USERS
    · rw [parseUsersLoop, if_pos h, ih (n + 1)]
      have h2 : MAX_USERS - n = (MAX_USERS - (n + 1)) + 1 := by
        simp only [MAX_USERS] at h ⊢; omega
      rw [h2, List.take_succ_cons, List.map_cons]
    · rw [parseUsersLoop, if_neg h]
      have h2 : MAX_USERS - n = 0 := by
        simp only [MAX_USERS] at h ⊢; omega
      rw [h2, List.take_zero, List.map_nil]

theorem parseAuthorizedUsers_eq (raw : String) :
    parseAuthorizedUsers raw =
      ((commaTokens (raw.data.take (MAX_USERS_LEN - 1))).take MAX_USERS).map atolCore := by
  rw [parseAuthorizedUsers, parseUsersLoop_eq, Nat.sub_zero]

theorem isAuthorizedUser_iff_mem (chat_id : Int) (users : List Int) :
    isAuthorizedUser chat_id users = true ↔ chat_id ∈ users := by
  rw [isAuthorizedUser, List.any_eq_true]
  constructor
  · rintro ⟨u, hu, h⟩
    exact (beq_iff_eq.mp h) ▸ hu
  · intro h
    exact ⟨chat_id, h, beq_self_eq_true chat_id⟩

-- ===================== CLAIM C2 =====================

/-- C2: after loading an authorized-id set from a raw comma-separated string
with at most 10 ids (raw strings live in the 128-byte `Config.authorizedUsers`
field, hence hold at most 127 characters), `isAuthorizedUser` answers true for
a queried id exactly when that id equals one of the integers parsed (by
`atol`) from the non-empty comma tokens of the most recently loaded raw
string. -/
theorem isAuthorizedUser_iff_parsed (raw : String) (id : Int)
    (hlen : raw.data.length ≤ 127)
    (htok : (commaTokens raw.data).length ≤ 10) :
    isAuthorizedUser id (parseAuthorizedUsers raw) = true ↔
      id ∈ (commaTokens raw.data).map atolCore := by
  have htr : raw.data.take (MAX_USERS_LEN - 1) = raw.data := by
    apply List.take_of_length_le
    simpa [MAX_USERS_LEN] using hlen
  have htk : (commaTokens raw.data).take MAX_USERS = commaTokens raw.data := by
    apply List.take_of_length_le
    simpa [MAX_USERS] using htok
  rw [parseAuthorizedUsers_eq, htr, htk, isAuthorizedUser_iff_mem]

/-- Witness for C2 on the concrete registry string `"111,222"`. -/
theorem isAuthorizedUser_iff_parsed_witness :
    isAuthorizedUser 222 (parseAuthorizedUsers "111,222") = true ↔
      222 ∈ (commaTokens ("111,222" : String).data).map atolCore :=
  isAuthorizedUser_iff_parsed "111,222" 222 (by decide) (by decide)

-- ===================== CLAIM C7 =====================

theorem atolCore_of_no_digit (cs : List Char) (c : Char) (rest : List Char)
    (hdrop : cs.dropWhile isSpaceChar = c :: rest)
    (hd : c.isDigit = false) (hm : c ≠ '-') (hp : c ≠ '+') :
    atolCore cs = 0 := by
  simp only [atolCore, hdrop]
  rw [if_neg hm, if_neg hp, List.takeWhile_cons, hd]
  simp [digitsVal]

/-- C7: loading the registry from any raw string (the 128-byte config field
holds at most 127 characters) clears the set and stores the `atol` conversion
of each non-empty comma token in order, keeping only the first 10 and
silently dropping the rest; a token with no leading numeric part (not even a
sign) converts to 0 and is stored, not rejected. -/
theorem parseAuthorizedUsers_spec (raw : String) (hlen : raw.data.length ≤ 127) :
    parseAuthorizedUsers raw = ((commaTokens raw.data).take MAX_USERS).map atolCore
    ∧ (parseAuthorizedUsers raw).length ≤ MAX_USERS
    ∧ (∀ cs c rest, cs.dropWhile isSpaceChar = c :: rest → c.isDigit = false →
        c ≠ '-' → c ≠ '+' → atolCore cs = 0) := by
  have htr : raw.data.take (MAX_USERS_LEN - 1) = raw.data := by
    apply List.take_of_length_le
    simpa [MAX_USERS_LEN] using hlen
  refine ⟨?_, ?_, fun cs c rest h1 h2 h3 h4 => atolCore_of_no_digit cs c rest h1 h2 h3 h4⟩
  · rw [parseAuthorizedUsers_eq, htr]
  · rw [parseAuthorizedUsers_eq, htr, List.length_map]
    exact List.length_take_le MAX_USERS (commaTokens raw.data)

/-- Witness for C7: a raw string with 11 tokens, one non-numeric, stores the
`atol` values of the first 10 tokens only. -/
theorem parseAuthorizedUsers_spec_witness :
    parseAuthorizedUsers "1,2,3,abc,5,6,7,8,9,10,11" =
      ((commaTokens ("1,2,3,abc,5,6,7,8,9,10,11" : String).data).take MAX_USERS).map atolCore :=
  (parseAuthorizedUsers_spec "1,2,3,abc,5,6,7,8,9,10,11" (by decide)).1

-- ===================== CLAIM C5 =====================

/-- A sequence of `logOperation` calls applied to the freshly initialized
log; each element is `(millis reading, chatId, operation, userName)`. -/
def appendAll (ops : List (Nat × Int × String × String)) : OperationLog :=
  ops.foldl (fun l a => logOperation a.1 a.2.1 a.2.2.1 a.2.2.2 l) initializeLog

/-- C5: the operation history is a bounded most-recent-first buffer: it never
holds more than 5 entries; one append writes the new entry into slot 0,
moves every previously held slot down exactly one position and discards the
previous slot 4; and after any non-empty sequence of appends from the empty
history, slot 0 holds exactly the entry appended last. -/
theorem logOperation_ring_buffer :
    (∀ l : OperationLog, countValidEntries l ≤ 5)
    ∧ (∀ (l : OperationLog) (now : Nat) (chatId : Int) (op userName : String),
        (logOperation now chatId op userName l).entries =
          (⟨now, chatId, op, userName⟩ : LogEntry) :: l.entries.take 4)
    ∧ (∀ (ops : List (Nat × Int × String × String)) (a : Nat × Int × String × String),
        (appendAll (ops ++ [a])).e0 = ⟨a.1, a.2.1, a.2.2.1, a.2.2.2⟩) := by
  refine ⟨?_, ?_, ?_⟩
  · intro l
    calc (l.entries.filter (fun e => e.timestamp > 0)).length
        ≤ l.entries.length := List.length_filter_le _ _
      _ = 5 := by simp [OperationLog.entries]
  · intro l now chatId op userName
    simp [logOperation, OperationLog.entries]
  · intro ops a
    simp [appendAll, List.foldl_append, logOperation]


-- ===================== CLAIM C9 =====================

theorem buttonISR_accept (now : Nat) (s : ButtonState)
    (h : sub32 now s.lastInterruptTime > interruptDebounceDelay) :
    buttonISR now s = ⟨true, now⟩ := by
  rw [buttonISR, if_pos h]

theorem buttonISR_reject (now : Nat) (s : ButtonState)
    (h : ¬ sub32 now s.lastInterruptTime > interruptDebounceDelay) :
    buttonISR now s = s := by
  rw [buttonISR, if_neg h]

/-- C9: from boot, given a first raw edge late enough to be accepted
(`interruptDebounceDelay < t1`) and a second raw edge at `t2`, with the main
loop polling the flag after each edge: a second edge strictly less than
100 ms after the first accepted edge is ignored (one accepted event in
total), and a second edge strictly more than 100 ms after it is accepted
(two accepted events in total). -/
theorem debounce_two_edges (t1 t2 : Nat)
    (h1 : interruptDebounceDelay < t1) (h12 : t1 ≤ t2) (h2 : t2 < 2 ^ 32) :
    (t2 - t1 < interruptDebounceDelay → pollAcceptedEvents [t1, t2] buttonInit = 1)
    ∧ (interruptDebounceDelay < t2 - t1 → pollAcceptedEvents [t1, t2] buttonInit = 2) := by
  have ht1 : t1 < 2 ^ 32 := lt_of_le_of_lt h12 h2
  have e1 : sub32 t1 0 = t1 := by
    rw [sub32_eq_sub t1 0 (Nat.zero_le t1) ht1, Nat.sub_zero]
  have e2 : sub32 t2 t1 = t2 - t1 := sub32_eq_sub t2 t1 h12 h2
  have ha : sub32 t1 0 > interruptDebounceDelay := by rw [e1]; exact h1
  constructor
  · intro h
    have hb : ¬ sub32 t2 t1 > interruptDebounceDelay := by rw [e2]; omega
    rw [pollAcceptedEvents, buttonISR_accept t1 buttonInit ha]
    rw [pollAcceptedEvents]
    rw [buttonISR_reject t2 _ hb]
    rw [pollAcceptedEvents]
    simp
  · intro h
    have hb : sub32 t2 t1 > interruptDebounceDelay := by rw [e2]; exact h
    rw [pollAcceptedEvents, buttonISR_accept t1 buttonInit ha]
    rw [pollAcceptedEvents]
    rw [buttonISR_accept t2 _ hb]
    rw [pollAcceptedEvents]
    simp

/-- Witness for C9: edges at 200 ms and 250 ms give one accepted event;
edges at 200 ms and 400 ms give two. -/
theorem debounce_two_edges_witness :
    pollAcceptedEvents [200, 250] buttonInit = 1
    ∧ pollAcceptedEvents [200, 400] buttonInit = 2 :=
  ⟨(debounce_two_edges 200 250 (by decide) (by decide) (by decide)).1 (by decide),
   (debounce_two_edges 200 400 (by decide) (by decide) (by decide)).2 (by decide)⟩

-- ===================== CLAIM C3 =====================

/-- C3 counterexample: the claim fails at an activation occurring when the
clock reads 0.  `openDoor()` then stores `doorOpenTime = 0`, which is the
code's "inactive" sentinel, so the timeout sweep at 2000 ms — strictly more
than the 1000 ms duration after the most recent activation, with no
re-activation — leaves the relay active, refuting "inactive after strictly
more than the fixed duration has elapsed". -/
theorem actuator_pulse_counterexample :
    DOOR_TIMEOUT < 2000 - 0
    ∧ (sweepActuator DOOR_TIMEOUT 2000 (openDoor 0 actuatorInit)).relay = true := by
  decide

/-- C3 amended: for activations at a nonzero clock reading (every reading
except the single wrap-around instant `millis() == 0`), the actuator is
active immediately after activation, stays active through any sweeps while
at most the fixed duration has elapsed since the most recent activation,
is inactive after a sweep strictly later than the duration, and a
re-activation restarts the countdown from the re-activation time. -/
theorem actuator_pulse_behavior (a : Actuator) (t0 : Nat)
    (hpos : 0 < t0) (hlt : t0 < 2 ^ 32) :
    ((openDoor t0 a).relay = true)
    ∧ (∀ ts : List Nat, (∀ t ∈ ts, t0 ≤ t ∧ t < 2 ^ 32 ∧ t - t0 ≤ DOOR_TIMEOUT) →
        runDoor (ts.map DoorAct.sweep) (openDoor t0 a) = openDoor t0 a)
    ∧ (∀ t, t0 ≤ t → t < 2 ^ 32 → DOOR_TIMEOUT < t - t0 →
        (sweepActuator DOOR_TIMEOUT t (openDoor t0 a)).relay = false)
    ∧ (∀ t1 t, 0 < t1 → t1 ≤ t → t < 2 ^ 32 → t - t1 ≤ DOOR_TIMEOUT →
        (sweepActuator DOOR_TIMEOUT t (openDoor t1 (openDoor t0 a))).relay = true) := by
  refine ⟨rfl, ?_, ?_, ?_⟩
  · intro ts hts
    induction ts with
    | nil => rfl
    | cons t ts ih =>
      have ht := hts t (List.mem_cons_self t ts)
      have hnoop : sweepActuator DOOR_TIMEOUT t (openDoor t0 a) = openDoor t0 a := by
        rw [sweepActuator, if_neg]
        rintro ⟨-, hgt⟩
        rw [show (openDoor t0 a).openTime = t0 from rfl] at hgt
        rw [sub32_eq_sub t t0 ht.1 ht.2.1] at hgt
        have := ht.2.2
        simp only [DOOR_TIMEOUT] at this hgt
        omega
      rw [List.map_cons, runDoor, List.foldl_cons]
      show runDoor (ts.map DoorAct.sweep) (sweepActuator DOOR_TIMEOUT t (openDoor t0 a)) =
        openDoor t0 a
      rw [hnoop]
      exact ih (fun x hx => hts x (List.mem_cons_of_mem t hx))
  · intro t h1 h2 h3
    rw [sweepActuator, if_pos]
    constructor
    · exact hpos
    · rw [show (openDoor t0 a).openTime = t0 from rfl, sub32_eq_sub t t0 h1 h2]
      exact h3
  · intro t1 t hp1 hle hlt2 hdur
    rw [sweepActuator, if_neg]
    · rfl
    · rintro ⟨-, hgt⟩
      rw [show (openDoor t1 (openDoor t0 a)).openTime = t1 from rfl] at hgt
      rw [sub32_eq_sub t t1 hle hlt2] at hgt
      simp only [DOOR_TIMEOUT] at hgt hdur
      omega

/-- Witness for C3 (amended): activation at 5 ms, re-activation at 600 ms,
sweep at 1600 ms — exactly 1000 ms after the re-activation — still active. -/
theorem actuator_pulse_behavior_witness :
    (sweepActuator DOOR_TIMEOUT 1600 (openDoor 600 (openDoor 5 actuatorInit))).relay = true :=
  (actuator_pulse_behavior actuatorInit 5 (by decide) (by decide)).2.2.2 600 1600
    (by decide) (by decide) (by decide) (by decide)

-- ===================== CLAIM C4 =====================

/-- Whether every activation in a trace happens at a nonzero clock reading. -/
def posActivations (acts : List DoorAct) : Bool :=
  acts.all (fun act =>
    match act with
    | .activate t => decide (0 < t)
    | .sweep _ => true)

/-- C4 counterexample: the state reached from boot by the single step
"activate at clock reading 0" has the relay HIGH while the activation
timestamp is the unset sentinel 0, refuting the invariant "active iff
`activatedAt` is set"; moreover a sweep far beyond the fixed duration does
not deactivate it, refuting "never left active indefinitely while the sweep
keeps running". -/
theorem actuator_invariant_counterexample :
    (runDoor [DoorAct.activate 0] actuatorInit).relay = true
    ∧ (runDoor [DoorAct.activate 0] actuatorInit).openTime = 0
    ∧ (sweepActuator DOOR_TIMEOUT 5000 (runDoor [DoorAct.activate 0] actuatorInit)).relay
        = true := by
  decide

theorem runDoor_inv (acts : List DoorAct) :
    ∀ s : Actuator, posActivations acts = true →
      (s.relay = true ↔ s.openTime ≠ 0) →
      ((runDoor acts s).relay = true ↔ (runDoor acts s).openTime ≠ 0) := by
  induction acts with
  | nil => intro s _ h; exact h
  | cons act acts ih =>
    intro s hpos h
    have hacts : posActivations acts = true := by
      simp only [posActivations, List.all_cons, Bool.and_eq_true] at hpos
      exact hpos.2
    cases act with
    | activate t =>
      have ht : 0 < t := by
        simp only [posActivations, List.all_cons, Bool.and_eq_true] at hpos
        exact of_decide_eq_true hpos.1
      show (runDoor acts (openDoor t s)).relay = true ↔
        (runDoor acts (openDoor t s)).openTime ≠ 0
      refine ih (openDoor t s) hacts ?_
      simp only [openDoor]
      constructor
      · intro _; omega
      · intro _; trivial
    | sweep t =>
      show (runDoor acts (sweepActuator DOOR_TIMEOUT t s)).relay = true ↔
        (runDoor acts (sweepActuator DOOR_TIMEOUT t s)).openTime ≠ 0
      refine ih (sweepActuator DOOR_TIMEOUT t s) hacts ?_
      by_cases hc : s.openTime > 0 ∧ sub32 t s.openTime > DOOR_TIMEOUT
      · rw [sweepActuator, if_pos hc]
        simp
      · rw [sweepActuator, if_neg hc]
        exact h

/-- C4 amended: along any trace of activations and sweeps whose activations
all happen at a nonzero clock reading, every reachable actuator state
satisfies "relay active iff activation timestamp set"; from any reachable
active state, a sweep strictly later than the fixed duration deactivates it
(relay LOW, timestamp cleared), and a sweep on an inactive state is a no-op,
so each activation is followed by exactly one deactivation. -/
theorem actuator_invariant (acts : List DoorAct) (h : posActivations acts = true) :
    ((runDoor acts actuatorInit).relay = true ↔
      (runDoor acts actuatorInit).openTime ≠ 0)
    ∧ (∀ t, (runDoor acts actuatorInit).relay = true →
        (runDoor acts actuatorInit).openTime ≤ t → t < 2 ^ 32 →
        DOOR_TIMEOUT < t - (runDoor acts actuatorInit).openTime →
        sweepActuator DOOR_TIMEOUT t (runDoor acts actuatorInit) =
          { relay := false, openTime := 0 })
    ∧ (∀ (t : Nat) (s : Actuator), s.openTime = 0 →
        sweepActuator DOOR_TIMEOUT t s = s) := by
  have hinv := runDoor_inv acts actuatorInit h (by simp [actuatorInit])
  refine ⟨hinv, ?_, ?_⟩
  · intro t hrel hle hlt hdur
    have hne : (runDoor acts actuatorInit).openTime ≠ 0 := hinv.mp hrel
    rw [sweepActuator, if_pos]
    refine ⟨Nat.pos_of_ne_zero hne, ?_⟩
    rw [sub32_eq_sub _ _ hle hlt]
    exact hdur
  · intro t s hs
    rw [sweepActuator, if_neg]
    rintro ⟨hgt, -⟩
    omega

/-- Witness for C4 (amended): the invariant at the state reached by
activating at 50 ms and sweeping at 2000 ms. -/
theorem actuator_invariant_witness :
    (runDoor [DoorAct.activate 50, DoorAct.sweep 2000] actuatorInit).relay = true ↔
      (runDoor [DoorAct.activate 50, DoorAct.sweep 2000] actuatorInit).openTime ≠ 0 :=
  (actuator_invariant [DoorAct.activate 50, DoorAct.sweep 2000] (by decide)).1

-- ===================== CLAIM C8 =====================

theorem shortLine_ne_empty (n a g : String) : n ++ " " ++ a ++ " " ++ g ≠ "" := by
  intro h
  have hlen := congrArg String.length h
  simp only [String.length_append] at hlen
  rw [show (" " : String).length = 1 from rfl,
      show ("" : String).length = 0 from rfl] at hlen
  omega

/-- C8: on the empty history the detailed renderer returns exactly the
"no operations recorded" message and every display slot renders as the empty
string; after exactly 3 appends (at nonzero clock readings, newest first) the
detailed renderer emits exactly the 3 entry blocks and the display slots
0, 1, 2 — and only those — render non-empty. -/
theorem log_renderers_spec (now : Nat) (a b c : Nat × Int × String × String)
    (ha : 0 < a.1) (hb : 0 < b.1) (hc : 0 < c.1) :
    (getFormattedLog now initializeLog = "📋 *Operations Log*\n\n" ++ "No operations recorded.")
    ∧ (∀ idx, idx < 5 → getShortLogLine initializeLog now idx = "")
    ∧ (getFormattedLog now (appendAll [a, b, c]) =
        "📋 *Operations Log*\n\n" ++ String.join
          [logEntryBlock now ⟨c.1, c.2.1, c.2.2.1, c.2.2.2⟩,
           logEntryBlock now ⟨b.1, b.2.1, b.2.2.1, b.2.2.2⟩,
           logEntryBlock now ⟨a.1, a.2.1, a.2.2.1, a.2.2.2⟩])
    ∧ (∀ idx, idx < 5 → (getShortLogLine (appendAll [a, b, c]) now idx ≠ "" ↔ idx < 3)) := by
  have ha' : a.1 ≠ 0 := by omega
  have hb' : b.1 ≠ 0 := by omega
  have hc' : c.1 ≠ 0 := by omega
  refine ⟨rfl, ?_, ?_, ?_⟩
  · intro idx hidx
    match idx, hidx with
    | 0, _ => rfl
    | 1, _ => rfl
    | 2, _ => rfl
    | 3, _ => rfl
    | 4, _ => rfl
  · simp [getFormattedLog, appendAll, logOperation, initializeLog, countValidEntries,
      OperationLog.entries, emptyLogEntry, ha, hb, hc]
  · intro idx hidx
    match idx, hidx with
    | 0, _ =>
      simp [getShortLogLine, appendAll, logOperation, initializeLog,
        OperationLog.entries, hc', shortLine_ne_empty]
    | 1, _ =>
      simp [getShortLogLine, appendAll, logOperation, initializeLog,
        OperationLog.entries, hb', shortLine_ne_empty]
    | 2, _ =>
      simp [getShortLogLine, appendAll, logOperation, initializeLog,
        OperationLog.entries, ha', shortLine_ne_empty]
    | 3, _ =>
      simp [getShortLogLine, appendAll, logOperation, initializeLog,
        OperationLog.entries, emptyLogEntry]
    | 4, _ =>
      simp [getShortLogLine, appendAll, logOperation, initializeLog,
        OperationLog.entries, emptyLogEntry]

/-- Witness for C8 at concrete entries and clock reading 10000 ms. -/
theorem log_renderers_spec_witness :
    getFormattedLog 10000 initializeLog =
      "📋 *Operations Log*\n\n" ++ "No operations recorded." :=
  (log_renderers_spec 10000 (1000, 111, "OPEN_DOOR", "Alice")
    (2000, 0, "DOOR_BUTTON", "Button") (3000, 222, "LIGHT_ON", "Bob")
    (by decide) (by decide) (by decide)).1

-- ===================== CLAIM C10 =====================

/-- C10: the detailed renderer labels every entry whose operation is not
`"LIGHT_ON"` — in particular physical-button `"DOOR_BUTTON"` entries — with
the door emoji and the label "DOOR OPENED"; consequently two entries with
different non-light operation kinds but the same user name and timestamp
render to identical blocks, so the detailed log cannot distinguish a
button-originated door opening from a remote-command one beyond the user
name. -/
theorem detailed_log_door_label (now : Nat) (e : LogEntry)
    (hop : e.operation ≠ "LIGHT_ON") :
    (logEntryBlock now e =
      "• " ++ "🚪" ++ " " ++ "DOOR OPENED" ++ "\n"
        ++ "  👤 " ++ e.userName ++ "\n"
        ++ "  ⏰ " ++ formatTimeAgo (sub32 now e.timestamp) ++ "\n\n")
    ∧ (∀ e2 : LogEntry, e2.operation ≠ "LIGHT_ON" → e2.userName = e.userName →
        e2.timestamp = e.timestamp → logEntryBlock now e2 = logEntryBlock now e) := by
  have hbeq : (e.operation == "LIGHT_ON") = false := by
    simp [hop]
  constructor
  · rw [logEntryBlock]
    rw [hbeq]
    rfl
  · intro e2 hop2 hname hts
    have hbeq2 : (e2.operation == "LIGHT_ON") = false := by
      simp [hop2]
    rw [logEntryBlock, logEntryBlock, hbeq, hbeq2, hname, hts]

/-- Witness for C10: a button entry and a remote entry with the same name
and timestamp render identically. -/
theorem detailed_log_door_label_witness :
    logEntryBlock 5000 ⟨1000, 7, "DOOR_BUTTON", "X"⟩ =
      logEntryBlock 5000 ⟨1000, 5, "OPEN_DOOR", "X"⟩ :=
  (detailed_log_door_label 5000 ⟨1000, 5, "OPEN_DOOR", "X"⟩ (by decide)).2
    ⟨1000, 7, "DOOR_BUTTON", "X"⟩ (by decide) rfl rfl

-- ===================== CLAIM C1 =====================

/-- A concrete running state with authorized registry {111}, used by the
counterexample and witnesses below. -/
def demoState : SysState :=
  ⟨5000, actuatorInit, actuatorInit, initializeLog, [111], false, true, -50, 20000⟩

/-- C1 counterexample: the claim fails on the callback channel.  Originator
id 999 is not authorized, yet processing its callback event produces no
error-feedback signal (the dispatcher only answers the callback query with
"Unauthorized"; `errorBeep()` is called only on the text-message path), so
"signals error feedback" does not hold for every unauthorized remote
event. -/
theorem unauthorized_callback_counterexample :
    isAuthorizedUser (atolCore ("999" : String).data) demoState.authorizedUsers = false
    ∧ Effect.beepError ∉
        (handleOneMessage
          ⟨TgMsgType.callback_query, "999", "OPEN_DOOR", "Mallory", "q1"⟩ demoState).2
    ∧ (handleOneMessage
          ⟨TgMsgType.callback_query, "999", "OPEN_DOOR", "Mallory", "q1"⟩ demoState).2 =
        [Effect.answerCallbackQuery "q1" "Unauthorized"] := by
  decide

/-- C1 amended: an inbound remote event whose originator id is not in the
authorized set causes no routing and no state change (door and history
untouched); an unauthorized text command is answered with the access-denied
text followed by the error-feedback signal, while an unauthorized callback
is only acknowledged with "Unauthorized" and receives no error-feedback
signal. -/
theorem unauthorized_no_routing (m : TgMessage) (st : SysState)
    (h : isAuthorizedUser (atolCore m.chat_id.data) st.authorizedUsers = false) :
    ((handleOneMessage m st).1 = st)
    ∧ (m.msgType = TgMsgType.message →
        (handleOneMessage m st).2 =
          [Effect.sendMessage m.chat_id accessDeniedText "Markdown", Effect.beepError])
    ∧ (m.msgType = TgMsgType.callback_query →
        (handleOneMessage m st).2 =
          [Effect.answerCallbackQuery m.query_id "Unauthorized"]) := by
  obtain ⟨mt, chat_id, text, from_name, query_id⟩ := m
  cases mt with
  | message =>
    refine ⟨?_, fun _ => ?_, fun hc => TgMsgType.noConfusion hc⟩
    · simp [handleOneMessage, h]
    · simp [handleOneMessage, h, handleUnauthorizedUser]
  | callback_query =>
    refine ⟨?_, fun hc => TgMsgType.noConfusion hc, fun _ => ?_⟩
    · simp [handleOneMessage, h]
    · simp [handleOneMessage, h]

/-- Witness for C1 (amended): unauthorized originator 999 sending `/open`
receives exactly the access-denied text and the error beep. -/
theorem unauthorized_no_routing_witness :
    (handleOneMessage ⟨TgMsgType.message, "999", "/open", "Mallory", ""⟩ demoState).2 =
      [Effect.sendMessage "999" accessDeniedText "Markdown", Effect.beepError] :=
  (unauthorized_no_routing ⟨TgMsgType.message, "999", "/open", "Mallory", ""⟩ demoState
    (by decide)).2.1 rfl

-- ===================== CLAIM C6 =====================

/-- C6: one accepted button press (pending interrupt flag set) activates the
door actuator and appends exactly one history entry with operation
`"DOOR_BUTTON"`, user name `"Button"` and originator id 0, and produces no
outbound remote message (the only effect is the confirmation beep). -/
theorem button_press_behavior (st : SysState) (h : st.buttonInterruptFlag = true) :
    ((checkButtonOpenDoor st).1.door.relay = true)
    ∧ ((checkButtonOpenDoor st).1.operationLog =
        logOperation st.now 0 "DOOR_BUTTON" "Button" st.operationLog)
    ∧ ((checkButtonOpenDoor st).1.operationLog.e0 =
        ⟨st.now, 0, "DOOR_BUTTON", "Button"⟩)
    ∧ ((checkButtonOpenDoor st).2 = [Effect.beepConfirm])
    ∧ (∀ e ∈ (checkButtonOpenDoor st).2, e.isOutbound = false) := by
  refine ⟨?_, ?_, ?_, ?_, ?_⟩ <;>
    simp [checkButtonOpenDoor, h, openDoorFromButton, openDoor, logOperation,
      Effect.isOutbound]

/-- Witness for C6 at a concrete state with the flag pending. -/
theorem button_press_behavior_witness :
    (checkButtonOpenDoor { demoState with buttonInterruptFlag := true }).2 =
      [Effect.beepConfirm] :=
  (button_press_behavior { demoState with buttonInterruptFlag := true } rfl).2.2.2.1
